import Mathlib

/-!
Shallow embedding of the `relay` library (package `relay`): a client-side
relay over an AMQP broker.  The connection manager (`New`, `getConn`,
`watchConn`, `getChan`, `declareQueue`, `Relay.Close`, `Relay.Consumer`,
`Relay.Publisher`) is embedded from the source file.  Broker behaviour
(what `amqp.Dial`, `Connection.Channel`, `Channel.ExchangeDeclare`, … return
on a given call) is a parameter `BrokerEnv` of the embedding, so theorems
quantify over every broker behaviour.  The Consumer / Publisher method
bodies (`Consume`, `Ack`, `Nack`, `Close`, `Publish`) are not part of the
given sources; where a claim needs them they are modelled from the spec
and marked as such.
-/

namespace Relay

/-- The pluggable payload serializer.  `gob` is the default generic binary
(GOB) serializer; `custom` stands for any user-supplied one. -/
inductive SerializerKind
  | gob
  | custom (id : Nat)
deriving DecidableEq

/-- `Config` from the source: tunes broker interactions.  Go zero values
(empty string, 0, nil) are the "unset" markers that `New` replaces with
defaults.  The nilable `Serializer` field is an `Option`. -/
structure Config where
  Addr : String
  Port : Nat
  Vhost : String
  Username : String
  Password : String
  EnableTLS : Bool
  PrefetchCount : Nat
  EnableMultiAck : Bool
  DisablePublishConfirm : Bool
  DisablePersistence : Bool
  Exchange : String
  Serializer : Option SerializerKind
deriving DecidableEq

/-- A Go zero-valued `Config`, every field unset. -/
def Config.zero : Config :=
  ⟨"", 0, "", "", "", false, 0, false, false, false, "", none⟩

/-- An abstract broker connection (`*amqp.Connection`), identified by the
order in which it was dialed. -/
structure Conn where
  id : Nat
deriving DecidableEq

/-- An abstract broker channel (`*amqp.Channel`). -/
structure Chan where
  id : Nat
deriving DecidableEq

/-- The `Relay` struct: the configuration and the two cached role
connections (publish role and consume role), both nullable. -/
structure RelayState where
  conf : Config
  pubConn : Option Conn
  consConn : Option Conn
deriving DecidableEq

/-- Observable side effects of the constructors that are not data flow:
registration of a garbage-collector finalizer via `runtime.SetFinalizer`. -/
inductive Effect
  | setFinalizer (target : String)
deriving DecidableEq

/-- The first `if` block of `New`: default address. -/
def defaultAddr (c : Config) : Config :=
  if c.Addr = "" then { c with Addr := "localhost" } else c

/-- The second `if` block of `New`: default port, by the TLS flag. -/
def defaultPort (c : Config) : Config :=
  if c.Port = 0 then
    { c with Port := if c.EnableTLS then 5671 else 5672 } else c

/-- The third `if` block of `New`: default vhost. -/
def defaultVhost (c : Config) : Config :=
  if c.Vhost = "" then { c with Vhost := "/" } else c

/-- The fourth `if` block of `New`: default username. -/
def defaultUsername (c : Config) : Config :=
  if c.Username = "" then { c with Username := "guest" } else c

/-- The fifth `if` block of `New`: default password. -/
def defaultPassword (c : Config) : Config :=
  if c.Password = "" then { c with Password := "guest" } else c

/-- The sixth `if` block of `New`: default exchange name. -/
def defaultExchange (c : Config) : Config :=
  if c.Exchange = "" then { c with Exchange := "relay" } else c

/-- The seventh `if` block of `New`: default serializer. -/
def defaultSerializer (c : Config) : Config :=
  if c.Serializer = none then
    { c with Serializer := some SerializerKind.gob } else c

/-- `New` from the source: fills every unset configuration field with its
default (one `if` block per field, in source order), allocates the
`Relay`, registers a finalizer on it, and returns `nil` error
unconditionally. -/
def New (c : Config) : RelayState × Option String × List Effect :=
  let c := defaultAddr c
  let c := defaultPort c
  let c := defaultVhost c
  let c := defaultUsername c
  let c := defaultPassword c
  let c := defaultExchange c
  let c := defaultSerializer c
  (⟨c, none, none⟩, none, [Effect.setFinalizer "Relay.Close"])

/-- The URI value `getConn` builds (`amqp.URI`); its rendering to a string
belongs to the external amqp library. -/
structure URI where
  Scheme : String
  Host : String
  Port : Nat
  Username : String
  Password : String
  Vhost : String
deriving DecidableEq

/-- The URI construction inside `getConn`: host, port, credentials and
vhost from the configuration, scheme by the TLS flag. -/
def getConnURI (conf : Config) : URI :=
  { Scheme := if conf.EnableTLS then "amqps" else "amqp"
  , Host := conf.Addr
  , Port := conf.Port
  , Username := conf.Username
  , Password := conf.Password
  , Vhost := conf.Vhost }

/-- One broker behaviour: the outcome of each external call the manager
makes.  `Option String` results are `none` on success, `some e` on a broker
error with text `e`; `Except` results either fail or produce a handle. -/
structure BrokerEnv where
  dial : Except String Conn
  channel : Conn → Except String Chan
  exchangeDeclare : Chan → String → Option String
  queueDeclare : Chan → String → Option String
  queueBind : Chan → String → String → Option String
  qos : Chan → Nat → Option String
  channelName : Except String String
  consume : Chan → String → String → Except String Nat
  confirm : Chan → Option String
  connClose : Conn → Option String

/-- `*amqp.Error`: what the notification stream delivers to `watchConn`. -/
structure AmqpError where
  Code : Nat
  Server : Bool
  Recover : Bool
  Reason : String
deriving DecidableEq

/-- Whether a `watchConn` goroutine has finished (and so cleared the cached
connection) or is still waiting on its notification stream. -/
inductive WatchOutcome
  | cleared
  | running
deriving DecidableEq

/-- `watchConn` from the source, on the finite trace of errors received so
far: `closed` says whether the notification stream closes after them.  The
loop keeps reading while errors are recoverable; it breaks (and then clears
the cached connection under the lock) on a non-recoverable error or when
the stream closes. -/
def watchConn : List AmqpError → Bool → WatchOutcome
  | [], closed => if closed then WatchOutcome.cleared else WatchOutcome.running
  | e :: rest, closed =>
    if e.Recover then watchConn rest closed else WatchOutcome.cleared

/-- The cached connection reference for the watched role after the trace:
cleared to `none` exactly when the watcher loop has broken out. -/
def watchConnRef (errs : List AmqpError) (closed : Bool)
    (conn : Option Conn) : Option Conn :=
  match watchConn errs closed with
  | WatchOutcome.cleared => none
  | WatchOutcome.running => conn

/-- The outcome of one `getChan` call on one role: the returned channel or
error, the cached connection for the role after the call, whether this call
freshly dialed (`isNew` in the source), and whether `ExchangeDeclare` was
invoked. -/
structure GetChanResult where
  result : Except String Chan
  conn : Option Conn
  dialed : Bool
  declared : Bool

/-- `getChan` from the source, for one role whose cached connection is
`conn`: dial if no cached connection (caching the new connection and
spawning a watcher), open a channel, and declare the exchange only when
the connection is freshly dialed. -/
def getChan (env : BrokerEnv) (exchange : String) (conn : Option Conn) :
    GetChanResult :=
  match conn with
  | some c =>
    match env.channel c with
    | Except.error e => ⟨Except.error e, some c, false, false⟩
    | Except.ok ch => ⟨Except.ok ch, some c, false, false⟩
  | none =>
    match env.dial with
    | Except.error e => ⟨Except.error e, none, false, false⟩
    | Except.ok newConn =>
      match env.channel newConn with
      | Except.error e => ⟨Except.error e, some newConn, true, false⟩
      | Except.ok ch =>
        match env.exchangeDeclare ch exchange with
        | some e =>
          ⟨Except.error ("Failed to declare exchange '" ++ exchange
              ++ "'! Got: " ++ e), some newConn, true, true⟩
        | none => ⟨Except.ok ch, some newConn, true, true⟩

/-- `declareQueue` from the source: declare the durable queue, then bind it
to the exchange under its own name, wrapping either failure. -/
def declareQueue (env : BrokerEnv) (exchange : String) (ch : Chan)
    (name : String) : Option String :=
  match env.queueDeclare ch name with
  | some e => some ("Failed to declare queue '" ++ name ++ "'! Got: " ++ e)
  | none =>
    match env.queueBind ch name exchange with
    | some e => some ("Failed to bind queue '" ++ name ++ "'! Got: " ++ e)
    | none => none

/-- `Relay.Close` from the source: close each cached connection that is
present, collect their errors, clear both references, and aggregate zero,
one or two errors into the return value.  The third component lists the
connections on which `Close` was invoked, in order. -/
def RelayState.close (env : BrokerEnv) (r : RelayState) :
    RelayState × Option String × List Conn :=
  let pubPart : List String × List Conn :=
    match r.pubConn with
    | some c => (match env.connClose c with | some e => [e] | none => [], [c])
    | none => ([], [])
  let consPart : List String × List Conn :=
    match r.consConn with
    | some c => (match env.connClose c with | some e => [e] | none => [], [c])
    | none => ([], [])
  let errors := pubPart.1 ++ consPart.1
  let res : Option String :=
    match errors with
    | [e] => some e
    | [e1, e2] => some ("Failed to Close! Got " ++ e1 ++ " and " ++ e2)
    | _ => none
  ({ r with pubConn := none, consConn := none }, res, pubPart.2 ++ consPart.2)

/-- Modelled from the spec: `queueName` is not among the given sources; the
spec says the broker queue name is derived from the logical name and used
as both queue name and binding key, so the derivation is the name itself. -/
def queueName (logical : String) : String := logical

/-- Modelled from the spec: the serializer collaborator reports a
content-type tag; the tag text itself is not in the given sources. -/
def SerializerKind.contentType : SerializerKind → String
  | SerializerKind.gob => "binary/gob"
  | SerializerKind.custom id => "custom/" ++ toString id

/-- `amqp.Transient` of the external broker library. -/
def Transient : Nat := 1

/-- `amqp.Persistent` of the external broker library. -/
def Persistent : Nat := 2

/-- The `Consumer` handle built by `Relay.Consumer`, with the fields of the
source's struct literal: configuration, consumer tag, queue name, channel,
delivery stream, and the zero-initialised ack-tracking state. -/
structure ConsumerHandle where
  conf : Config
  consName : String
  queue : String
  channel : Chan
  deliveries : Nat
  lastDtag : Nat
  needAck : Bool

/-- `Relay.Consumer` from the source: channel via `getChan` on the
consume-role connection, queue provisioning, optional QoS, consumer tag,
start of the delivery stream, then the handle with a finalizer. -/
def RelayState.consumer (env : BrokerEnv) (r : RelayState) (queue : String) :
    Except String ConsumerHandle × RelayState × List Effect :=
  let g := getChan env r.conf.Exchange r.consConn
  let r1 := { r with consConn := g.conn }
  match g.result with
  | Except.error e => (Except.error e, r1, [])
  | Except.ok ch =>
    let name := queueName queue
    match declareQueue env r.conf.Exchange ch name with
    | some e => (Except.error e, r1, [])
    | none =>
      let qosErr : Option String :=
        if r.conf.PrefetchCount > 0 then
          match env.qos ch r.conf.PrefetchCount with
          | some e => some ("Failed to set Qos prefetch! Got: " ++ e)
          | none => none
        else none
      match qosErr with
      | some e => (Except.error e, r1, [])
      | none =>
        match env.channelName with
        | Except.error e => (Except.error e, r1, [])
        | Except.ok consName =>
          match env.consume ch name consName with
          | Except.error e =>
            (Except.error ("Failed to start consuming messages! Got: " ++ e),
             r1, [])
          | Except.ok readCh =>
            (Except.ok ⟨r.conf, consName, name, ch, readCh, 0, false⟩, r1,
             [Effect.setFinalizer "Consumer.Close"])

/-- The `Publisher` handle built by `Relay.Publisher`: configuration, queue
name, channel, content type, delivery mode, and whether the confirmation
channels were attached.  A `Relay` built by `New` always has a serializer;
a nil serializer would crash the source, modelled by the empty tag. -/
structure PublisherHandle where
  conf : Config
  queue : String
  channel : Chan
  contentType : String
  mode : Nat
  confirmAttached : Bool

/-- `Relay.Publisher` from the source: channel via `getChan` on the
publish-role connection, queue provisioning, content type and persistence
mode from the configuration, optional confirm-mode setup, then the handle
with a finalizer. -/
def RelayState.publisher (env : BrokerEnv) (r : RelayState) (queue : String) :
    Except String PublisherHandle × RelayState × List Effect :=
  let g := getChan env r.conf.Exchange r.pubConn
  let r1 := { r with pubConn := g.conn }
  match g.result with
  | Except.error e => (Except.error e, r1, [])
  | Except.ok ch =>
    let name := queueName queue
    match declareQueue env r.conf.Exchange ch name with
    | some e => (Except.error e, r1, [])
    | none =>
      let contentType :=
        match r.conf.Serializer with
        | some s => s.contentType
        | none => ""
      let mode := if r.conf.DisablePersistence then Transient else Persistent
      if r.conf.DisablePublishConfirm then
        (Except.ok ⟨r.conf, name, ch, contentType, mode, false⟩, r1,
         [Effect.setFinalizer "Publisher.Close"])
      else
        match env.confirm ch with
        | some e =>
          (Except.error ("Failed to put publisher in confirm mode! Got: " ++ e),
           r1, [])
        | none =>
          (Except.ok ⟨r.conf, name, ch, contentType, mode, true⟩, r1,
           [Effect.setFinalizer "Publisher.Close"])

/-- The errors a Consumer or Publisher operation can report.
`channelClosed` is the distinguished `ChannelClosed` sentinel
(`fmt.Errorf("Channel closed!")` in the source); `other` is any generic
error text. -/
inductive RelayError
  | channelClosed
  | ackRequired
  | other (e : String)
deriving DecidableEq

/-- Modelled from the spec: the broker-side queue as the Consumer and
Publisher state machines see it — the deliveries ready to be handed to a
consumer, in order.  The Consumer/Publisher method bodies are not among
the given sources. -/
structure MQueue where
  ready : List String
deriving DecidableEq

/-- Modelled from the spec: the Consumer acknowledgment state machine —
the multi-ack flag, the deliveries taken but not yet acknowledged (in
delivery order), and the terminal closed state. -/
structure MConsumer where
  multiAck : Bool
  unacked : List String
  closed : Bool
deriving DecidableEq

/-- The outcome of one `Consume` call: a delivered message, an error, or
still blocked waiting for a delivery to arrive. -/
inductive ConsumeRes
  | ok (m : String)
  | err (e : RelayError)
  | blocked
deriving DecidableEq

/-- Modelled from the spec: `Consume` — the closed sentinel on a closed
consumer; with multi-ack disabled and an unacknowledged delivery pending,
an immediate ack-required error with the stream untouched; otherwise the
next delivery is taken off the stream and recorded as unacknowledged. -/
def MConsumer.consume (q : MQueue) (c : MConsumer) :
    ConsumeRes × MQueue × MConsumer :=
  if c.closed then (ConsumeRes.err RelayError.channelClosed, q, c)
  else if c.multiAck = false ∧ c.unacked ≠ [] then
    (ConsumeRes.err RelayError.ackRequired, q, c)
  else
    match q.ready with
    | [] => (ConsumeRes.blocked, q, c)
    | m :: rest =>
      (ConsumeRes.ok m, ⟨rest⟩, { c with unacked := c.unacked ++ [m] })

/-- Modelled from the spec: `Ack` — the closed sentinel on a closed
consumer; otherwise acknowledges everything pending (cumulative in
multi-ack mode) and clears the pending state. -/
def MConsumer.ack (q : MQueue) (c : MConsumer) :
    Option RelayError × MQueue × MConsumer :=
  if c.closed then (some RelayError.channelClosed, q, c)
  else (none, q, { c with unacked := [] })

/-- Modelled from the spec: `Nack` — the closed sentinel on a closed
consumer; otherwise rejects and requeues everything pending, so the
unacknowledged deliveries return to the head of the queue in order. -/
def MConsumer.nack (q : MQueue) (c : MConsumer) :
    Option RelayError × MQueue × MConsumer :=
  if c.closed then (some RelayError.channelClosed, q, c)
  else (none, ⟨c.unacked ++ q.ready⟩, { c with unacked := [] })

/-- Modelled from the spec: Consumer `Close` — idempotent; any pending
unacknowledged delivery is nacked (requeued) before the channel closes. -/
def MConsumer.close (q : MQueue) (c : MConsumer) :
    Option RelayError × MQueue × MConsumer :=
  if c.closed then (none, q, c)
  else (none, ⟨c.unacked ++ q.ready⟩,
    { c with unacked := [], closed := true })

/-- Modelled from the spec: the Publisher as the post-close-sentinel claim
needs it — only whether its channel has been closed. -/
structure MPublisher where
  closed : Bool
deriving DecidableEq

/-- Modelled from the spec: `Publish` — the closed sentinel on a closed
publisher; otherwise the message is appended to the queue. -/
def MPublisher.publish (p : MPublisher) (m : String) (q : MQueue) :
    Option RelayError × MQueue :=
  if p.closed then (some RelayError.channelClosed, q)
  else (none, ⟨q.ready ++ [m]⟩)

/-- Modelled from the spec: Publisher `Close` — idempotent, closes the
channel. -/
def MPublisher.close (p : MPublisher) : Option RelayError × MPublisher :=
  (none, { p with closed := true })

/-- A broker behaviour whose dial is refused — an unreachable address. -/
def envDialFail : BrokerEnv where
  dial := Except.error "dial tcp refused"
  channel := fun _ => Except.error "no connection"
  exchangeDeclare := fun _ _ => none
  queueDeclare := fun _ _ => none
  queueBind := fun _ _ _ => none
  qos := fun _ _ => none
  channelName := Except.ok "relay.tag"
  consume := fun _ _ _ => Except.ok 0
  confirm := fun _ => none
  connClose := fun _ => none

/-- A broker behaviour where every call succeeds. -/
def envAllOk : BrokerEnv where
  dial := Except.ok ⟨0⟩
  channel := fun _ => Except.ok ⟨0⟩
  exchangeDeclare := fun _ _ => none
  queueDeclare := fun _ _ => none
  queueBind := fun _ _ _ => none
  qos := fun _ _ => none
  channelName := Except.ok "relay.tag"
  consume := fun _ _ _ => Except.ok 0
  confirm := fun _ => none
  connClose := fun _ => none

/-- A broker behaviour where the dial and the channel open succeed but the
exchange declaration is rejected by the broker. -/
def envDeclareFail : BrokerEnv where
  dial := Except.ok ⟨0⟩
  channel := fun _ => Except.ok ⟨0⟩
  exchangeDeclare := fun _ _ => some "access refused"
  queueDeclare := fun _ _ => none
  queueBind := fun _ _ _ => none
  qos := fun _ _ => none
  channelName := Except.ok "relay.tag"
  consume := fun _ _ _ => Except.ok 0
  confirm := fun _ => none
  connClose := fun _ => none

/-- A broker behaviour where closing a connection fails, with an error text
naming the connection. -/
def envCloseFail : BrokerEnv where
  dial := Except.ok ⟨0⟩
  channel := fun _ => Except.ok ⟨0⟩
  exchangeDeclare := fun _ _ => none
  queueDeclare := fun _ _ => none
  queueBind := fun _ _ _ => none
  qos := fun _ _ => none
  channelName := Except.ok "relay.tag"
  consume := fun _ _ _ => Except.ok 0
  confirm := fun _ => none
  connClose := fun c => some ("close failed " ++ toString c.id)

/-!  Theorems, one per claim of the specification audit.  -/

/-- C1: constructing a Relay with `New` never fails, for every
configuration, including one naming an unreachable broker address; a dial
failure surfaces only later, as the error returned by the first
`Consumer(queue)` or `Publisher(queue)` call that needs a connection. -/
theorem c1_new_never_fails_dial_error_deferred :
    (∀ c : Config, (New c).2.1 = none) ∧
    (∀ (env : BrokerEnv) (r : RelayState) (q e : String),
      r.consConn = none → env.dial = Except.error e →
      (RelayState.consumer env r q).1 = Except.error e) ∧
    (∀ (env : BrokerEnv) (r : RelayState) (q e : String),
      r.pubConn = none → env.dial = Except.error e →
      (RelayState.publisher env r q).1 = Except.error e) := by
  refine ⟨fun c => rfl, ?_, ?_⟩ <;>
    · intro env r q e hconn hdial
      simp [RelayState.consumer, RelayState.publisher, getChan, hconn, hdial]

/-- C1 witness: with an unreachable broker, `New` succeeds and the first
Consumer and Publisher requests fail with the dial error. -/
theorem c1_witness :
    (New Config.zero).2.1 = none ∧
    (RelayState.consumer envDialFail (New Config.zero).1 "test").1
      = Except.error "dial tcp refused" ∧
    (RelayState.publisher envDialFail (New Config.zero).1 "test").1
      = Except.error "dial tcp refused" :=
  ⟨c1_new_never_fails_dial_error_deferred.1 Config.zero,
   c1_new_never_fails_dial_error_deferred.2.1 envDialFail (New Config.zero).1
     "test" "dial tcp refused" rfl rfl,
   c1_new_never_fails_dial_error_deferred.2.2 envDialFail (New Config.zero).1
     "test" "dial tcp refused" rfl rfl⟩

/-- The errors the two connection closes inside `Relay.Close` produce, in
order: the close of each present cached connection that fails contributes
its error. -/
def closeErrors (env : BrokerEnv) (r : RelayState) : List String :=
  (r.pubConn.toList ++ r.consConn.toList).filterMap env.connClose

/-- The `switch len(errors)` at the end of `Relay.Close`. -/
def aggregateClose : List String → Option String
  | [e] => some e
  | [e1, e2] => some ("Failed to Close! Got " ++ e1 ++ " and " ++ e2)
  | _ => none

/-- Closed form of `Relay.Close`: cleared state, aggregated error, and the
list of connections actually closed. -/
lemma close_eq (env : BrokerEnv) (r : RelayState) :
    RelayState.close env r =
      ({ r with pubConn := none, consConn := none },
        aggregateClose (closeErrors env r),
        r.pubConn.toList ++ r.consConn.toList) := by
  obtain ⟨conf, pc, cc⟩ := r
  rcases pc with _ | c1 <;> rcases cc with _ | c2
  · rfl
  · rcases h2 : env.connClose c2 <;>
      simp [RelayState.close, closeErrors, aggregateClose, h2]
  · rcases h1 : env.connClose c1 <;>
      simp [RelayState.close, closeErrors, aggregateClose, h1]
  · rcases h1 : env.connClose c1 <;> rcases h2 : env.connClose c2 <;>
      simp [RelayState.close, closeErrors, aggregateClose, h1, h2]

/-- C2: `Relay.Close` closes the cached publish-role and consume-role
connections if present, each exactly once (the list of closed connections
is exactly the present ones, in order), clears both cached references, and
returns success on zero underlying failures, the single error on one, and
one combined error on two; a repeated call on the cleared state closes
nothing and returns success. -/
theorem c2_close_clears_aggregates_idempotent :
    ∀ (env : BrokerEnv) (r : RelayState),
      (RelayState.close env r).1.pubConn = none ∧
      (RelayState.close env r).1.consConn = none ∧
      (RelayState.close env r).2.2 = r.pubConn.toList ++ r.consConn.toList ∧
      (closeErrors env r = [] → (RelayState.close env r).2.1 = none) ∧
      (∀ e, closeErrors env r = [e] → (RelayState.close env r).2.1 = some e) ∧
      (∀ e1 e2, closeErrors env r = [e1, e2] →
        (RelayState.close env r).2.1 =
          some ("Failed to Close! Got " ++ e1 ++ " and " ++ e2)) ∧
      RelayState.close env (RelayState.close env r).1 =
        ((RelayState.close env r).1, none, []) := by
  intro env r
  have h := close_eq env r
  refine ⟨by rw [h], by rw [h], by rw [h], ?_, ?_, ?_, ?_⟩
  · intro he; rw [h]; simp [he, aggregateClose]
  · intro e he; rw [h]; simp [he, aggregateClose]
  · intro e1 e2 he; rw [h]; simp [he, aggregateClose]
  · rw [h, close_eq]
    simp [closeErrors, aggregateClose]

/-- C2 witness: both cached connections present and both underlying closes
failing gives the combined error; the repeated close is a success no-op. -/
theorem c2_witness :
    (RelayState.close envCloseFail ⟨Config.zero, some ⟨0⟩, some ⟨1⟩⟩).2.1 =
      some "Failed to Close! Got close failed 0 and close failed 1" ∧
    RelayState.close envCloseFail
        (RelayState.close envCloseFail ⟨Config.zero, some ⟨0⟩, some ⟨1⟩⟩).1 =
      ((RelayState.close envCloseFail ⟨Config.zero, some ⟨0⟩, some ⟨1⟩⟩).1,
        none, []) :=
  ⟨(c2_close_clears_aggregates_idempotent envCloseFail
      ⟨Config.zero, some ⟨0⟩, some ⟨1⟩⟩).2.2.2.2.2.1
      "close failed 0" "close failed 1" rfl,
   (c2_close_clears_aggregates_idempotent envCloseFail
      ⟨Config.zero, some ⟨0⟩, some ⟨1⟩⟩).2.2.2.2.2.2⟩

/-- The watcher loop breaks out (and so clears the reference) exactly when
a non-recoverable error arrives or the stream closes. -/
lemma watchConn_cleared_iff (errs : List AmqpError) (closed : Bool) :
    watchConn errs closed = WatchOutcome.cleared ↔
      (∃ e ∈ errs, e.Recover = false) ∨ closed = true := by
  induction errs with
  | nil => cases closed <;> simp [watchConn]
  | cons e rest ih => rcases hR : e.Recover <;> simp [watchConn, hR, ih]

/-- C3: a connection's watcher clears the cached connection reference for
its role exactly when it receives a non-recoverable broker error or its
notification stream closes; while only recoverable errors have arrived and
the stream is open, the watcher is still running and the reference is
unchanged. -/
theorem c3_watcher_clears_on_fatal_or_stream_close :
    ∀ (errs : List AmqpError) (closed : Bool) (conn : Option Conn),
      (watchConn errs closed = WatchOutcome.cleared ↔
        (∃ e ∈ errs, e.Recover = false) ∨ closed = true) ∧
      (watchConn errs closed = WatchOutcome.running →
        watchConnRef errs closed conn = conn) ∧
      (watchConn errs closed = WatchOutcome.cleared →
        watchConnRef errs closed conn = none) := by
  intro errs closed conn
  refine ⟨watchConn_cleared_iff errs closed, ?_, ?_⟩ <;>
    · intro hw
      simp [watchConnRef, hw]

/-- Trace for the C3 witness: one recoverable error, then a fatal one. -/
def c3trace : List AmqpError :=
  [⟨320, true, true, "connection forced"⟩, ⟨501, true, false, "frame error"⟩]

/-- C3 witness: after a recoverable error followed by a non-recoverable
one, the watcher has cleared the cached reference even though the stream
is still open. -/
theorem c3_witness :
    watchConn c3trace false = WatchOutcome.cleared ∧
    watchConnRef c3trace false (some ⟨7⟩) = none :=
  have h := c3_watcher_clears_on_fatal_or_stream_close c3trace false (some ⟨7⟩)
  have hc : watchConn c3trace false = WatchOutcome.cleared :=
    h.1.mpr (Or.inl (by decide))
  ⟨hc, h.2.2 hc⟩

/-- C4: `getChan` invokes the exchange declaration (type "direct",
durable, not auto-deleted, the configured name) on the newly opened
channel if and only if the connection for that role was freshly dialed
during the same call (and the channel open succeeded, without which there
is no newly opened channel); a failing declaration yields the error
wrapping the exchange name and the broker error. -/
theorem c4_exchange_declared_iff_freshly_dialed :
    ∀ (env : BrokerEnv) (ex : String) (conn : Option Conn),
      ((getChan env ex conn).declared = true ↔
        (getChan env ex conn).dialed = true ∧
          (∃ c ch, env.dial = Except.ok c ∧ env.channel c = Except.ok ch)) ∧
      (∀ c ch e, conn = none → env.dial = Except.ok c →
        env.channel c = Except.ok ch → env.exchangeDeclare ch ex = some e →
        (getChan env ex conn).result =
          Except.error ("Failed to declare exchange '" ++ ex
            ++ "'! Got: " ++ e)) := by
  intro env ex conn
  constructor
  · rcases conn with _ | c0
    · rcases hd : env.dial with e | c
      · simp [getChan, hd]
      · rcases hc : env.channel c with e | ch
        · simp [getChan, hd, hc]
        · rcases hx : env.exchangeDeclare ch ex <;>
            simp [getChan, hd, hc, hx]
    · rcases hc : env.channel c0 <;> simp [getChan, hc]
  · intro c ch e hnone hd hc hx
    subst hnone
    simp [getChan, hd, hc, hx]

/-- C4 witness: a fresh dial whose exchange declaration the broker rejects
produces the wrapped error, and the declaration was attempted because the
connection was freshly dialed. -/
theorem c4_witness :
    (getChan envDeclareFail "relay" none).declared = true ∧
    (getChan envDeclareFail "relay" none).result =
      Except.error "Failed to declare exchange 'relay'! Got: access refused" :=
  have h := c4_exchange_declared_iff_freshly_dialed envDeclareFail "relay" none
  ⟨h.1.mpr ⟨rfl, ⟨0⟩, ⟨0⟩, rfl, rfl⟩,
   h.2 ⟨0⟩ ⟨0⟩ "access refused" rfl rfl rfl rfl⟩

/-- C10: when `getChan` freshly dials and the exchange declaration then
fails, the call returns an error but the newly dialed connection stays
cached; every later `getChan` call for that role, under any broker
behaviour, reuses the cached connection (`isNew` false), keeps it cached,
and never invokes the exchange declaration. -/
theorem c10_declare_failure_keeps_fresh_conn_cached :
    ∀ (env : BrokerEnv) (ex : String) (c : Conn) (ch : Chan) (e : String),
      env.dial = Except.ok c → env.channel c = Except.ok ch →
      env.exchangeDeclare ch ex = some e →
      (getChan env ex none).dialed = true ∧
      (getChan env ex none).result =
        Except.error ("Failed to declare exchange '" ++ ex
          ++ "'! Got: " ++ e) ∧
      (getChan env ex none).conn = some c ∧
      (∀ env2 : BrokerEnv,
        (getChan env2 ex (some c)).dialed = false ∧
        (getChan env2 ex (some c)).declared = false ∧
        (getChan env2 ex (some c)).conn = some c) := by
  intro env ex c ch e hd hc hx
  refine ⟨by simp [getChan, hd, hc, hx], by simp [getChan, hd, hc, hx],
    by simp [getChan, hd, hc, hx], ?_⟩
  intro env2
  rcases h2 : env2.channel c <;> simp [getChan, h2]

/-- C10 witness: after the failed declaration the connection is cached and
a later call on the same role neither redials nor declares. -/
theorem c10_witness :
    (getChan envDeclareFail "relay" none).conn = some ⟨0⟩ ∧
    (getChan envAllOk "relay" (some ⟨0⟩)).dialed = false ∧
    (getChan envAllOk "relay" (some ⟨0⟩)).declared = false :=
  have h := c10_declare_failure_keeps_fresh_conn_cached envDeclareFail "relay"
    ⟨0⟩ ⟨0⟩ "access refused" rfl rfl rfl
  ⟨h.2.2.1, (h.2.2.2 envAllOk).1, (h.2.2.2 envAllOk).2.1⟩

/-- How `defaultAddr` touches the tracked fields. -/
lemma defaultAddr_fields (c : Config) :
    (defaultAddr c).Addr = (if c.Addr = "" then "localhost" else c.Addr) ∧
    (defaultAddr c).Port = c.Port ∧
    (defaultAddr c).EnableTLS = c.EnableTLS ∧
    (defaultAddr c).Vhost = c.Vhost ∧
    (defaultAddr c).Username = c.Username ∧
    (defaultAddr c).Password = c.Password ∧
    (defaultAddr c).Exchange = c.Exchange ∧
    (defaultAddr c).Serializer = c.Serializer := by
  unfold defaultAddr
  split_ifs <;> exact ⟨rfl, rfl, rfl, rfl, rfl, rfl, rfl, rfl⟩

/-- How `defaultPort` touches the tracked fields. -/
lemma defaultPort_fields (c : Config) :
    (defaultPort c).Addr = c.Addr ∧
    (defaultPort c).Port =
      (if c.Port = 0 then (if c.EnableTLS then 5671 else 5672) else c.Port) ∧
    (defaultPort c).EnableTLS = c.EnableTLS ∧
    (defaultPort c).Vhost = c.Vhost ∧
    (defaultPort c).Username = c.Username ∧
    (defaultPort c).Password = c.Password ∧
    (defaultPort c).Exchange = c.Exchange ∧
    (defaultPort c).Serializer = c.Serializer := by
  unfold defaultPort
  split_ifs <;> exact ⟨rfl, rfl, rfl, rfl, rfl, rfl, rfl, rfl⟩

/-- How `defaultVhost` touches the tracked fields. -/
lemma defaultVhost_fields (c : Config) :
    (defaultVhost c).Addr = c.Addr ∧
    (defaultVhost c).Port = c.Port ∧
    (defaultVhost c).EnableTLS = c.EnableTLS ∧
    (defaultVhost c).Vhost = (if c.Vhost = "" then "/" else c.Vhost) ∧
    (defaultVhost c).Username = c.Username ∧
    (defaultVhost c).Password = c.Password ∧
    (defaultVhost c).Exchange = c.Exchange ∧
    (defaultVhost c).Serializer = c.Serializer := by
  unfold defaultVhost
  split_ifs <;> exact ⟨rfl, rfl, rfl, rfl, rfl, rfl, rfl, rfl⟩

/-- How `defaultUsername` touches the tracked fields. -/
lemma defaultUsername_fields (c : Config) :
    (defaultUsername c).Addr = c.Addr ∧
    (defaultUsername c).Port = c.Port ∧
    (defaultUsername c).EnableTLS = c.EnableTLS ∧
    (defaultUsername c).Vhost = c.Vhost ∧
    (defaultUsername c).Username =
      (if c.Username = "" then "guest" else c.Username) ∧
    (defaultUsername c).Password = c.Password ∧
    (defaultUsername c).Exchange = c.Exchange ∧
    (defaultUsername c).Serializer = c.Serializer := by
  unfold defaultUsername
  split_ifs <;> exact ⟨rfl, rfl, rfl, rfl, rfl, rfl, rfl, rfl⟩

/-- How `defaultPassword` touches the tracked fields. -/
lemma defaultPassword_fields (c : Config) :
    (defaultPassword c).Addr = c.Addr ∧
    (defaultPassword c).Port = c.Port ∧
    (defaultPassword c).EnableTLS = c.EnableTLS ∧
    (defaultPassword c).Vhost = c.Vhost ∧
    (defaultPassword c).Username = c.Username ∧
    (defaultPassword c).Password =
      (if c.Password = "" then "guest" else c.Password) ∧
    (defaultPassword c).Exchange = c.Exchange ∧
    (defaultPassword c).Serializer = c.Serializer := by
  unfold defaultPassword
  split_ifs <;> exact ⟨rfl, rfl, rfl, rfl, rfl, rfl, rfl, rfl⟩

/-- How `defaultExchange` touches the tracked fields. -/
lemma defaultExchange_fields (c : Config) :
    (defaultExchange c).Addr = c.Addr ∧
    (defaultExchange c).Port = c.Port ∧
    (defaultExchange c).EnableTLS = c.EnableTLS ∧
    (defaultExchange c).Vhost = c.Vhost ∧
    (defaultExchange c).Username = c.Username ∧
    (defaultExchange c).Password = c.Password ∧
    (defaultExchange c).Exchange =
      (if c.Exchange = "" then "relay" else c.Exchange) ∧
    (defaultExchange c).Serializer = c.Serializer := by
  unfold defaultExchange
  split_ifs <;> exact ⟨rfl, rfl, rfl, rfl, rfl, rfl, rfl, rfl⟩

/-- How `defaultSerializer` touches the tracked fields. -/
lemma defaultSerializer_fields (c : Config) :
    (defaultSerializer c).Addr = c.Addr ∧
    (defaultSerializer c).Port = c.Port ∧
    (defaultSerializer c).EnableTLS = c.EnableTLS ∧
    (defaultSerializer c).Vhost = c.Vhost ∧
    (defaultSerializer c).Username = c.Username ∧
    (defaultSerializer c).Password = c.Password ∧
    (defaultSerializer c).Exchange = c.Exchange ∧
    (defaultSerializer c).Serializer =
      (if c.Serializer = none then some SerializerKind.gob
        else c.Serializer) := by
  unfold defaultSerializer
  split_ifs <;> exact ⟨rfl, rfl, rfl, rfl, rfl, rfl, rfl, rfl⟩

/-- The configuration `New` stores is the composition of the seven
default-filling steps. -/
lemma new_conf (c : Config) :
    (New c).1.conf =
      defaultSerializer (defaultExchange (defaultPassword (defaultUsername
        (defaultVhost (defaultPort (defaultAddr c)))))) := by
  simp only [New]

/-- How `New` fills the address field. -/
lemma new_Addr (c : Config) :
    (New c).1.conf.Addr = (if c.Addr = "" then "localhost" else c.Addr) := by
  rw [new_conf, (defaultSerializer_fields _).1, (defaultExchange_fields _).1,
    (defaultPassword_fields _).1, (defaultUsername_fields _).1,
    (defaultVhost_fields _).1, (defaultPort_fields _).1,
    (defaultAddr_fields _).1]

/-- How `New` fills the port field. -/
lemma new_Port (c : Config) :
    (New c).1.conf.Port =
      (if c.Port = 0 then (if c.EnableTLS then 5671 else 5672)
        else c.Port) := by
  rw [new_conf, (defaultSerializer_fields _).2.1,
    (defaultExchange_fields _).2.1, (defaultPassword_fields _).2.1,
    (defaultUsername_fields _).2.1, (defaultVhost_fields _).2.1,
    (defaultPort_fields _).2.1, (defaultAddr_fields _).2.1,
    (defaultAddr_fields _).2.2.1]

/-- How `New` fills the vhost field. -/
lemma new_Vhost (c : Config) :
    (New c).1.conf.Vhost = (if c.Vhost = "" then "/" else c.Vhost) := by
  rw [new_conf, (defaultSerializer_fields _).2.2.2.1,
    (defaultExchange_fields _).2.2.2.1, (defaultPassword_fields _).2.2.2.1,
    (defaultUsername_fields _).2.2.2.1, (defaultVhost_fields _).2.2.2.1,
    (defaultPort_fields _).2.2.2.1, (defaultAddr_fields _).2.2.2.1]

/-- How `New` fills the username field. -/
lemma new_Username (c : Config) :
    (New c).1.conf.Username =
      (if c.Username = "" then "guest" else c.Username) := by
  rw [new_conf, (defaultSerializer_fields _).2.2.2.2.1,
    (defaultExchange_fields _).2.2.2.2.1,
    (defaultPassword_fields _).2.2.2.2.1,
    (defaultUsername_fields _).2.2.2.2.1, (defaultVhost_fields _).2.2.2.2.1,
    (defaultPort_fields _).2.2.2.2.1, (defaultAddr_fields _).2.2.2.2.1]

/-- How `New` fills the password field. -/
lemma new_Password (c : Config) :
    (New c).1.conf.Password =
      (if c.Password = "" then "guest" else c.Password) := by
  rw [new_conf, (defaultSerializer_fields _).2.2.2.2.2.1,
    (defaultExchange_fields _).2.2.2.2.2.1,
    (defaultPassword_fields _).2.2.2.2.2.1,
    (defaultUsername_fields _).2.2.2.2.2.1,
    (defaultVhost_fields _).2.2.2.2.2.1, (defaultPort_fields _).2.2.2.2.2.1,
    (defaultAddr_fields _).2.2.2.2.2.1]

/-- How `New` fills the exchange field. -/
lemma new_Exchange (c : Config) :
    (New c).1.conf.Exchange =
      (if c.Exchange = "" then "relay" else c.Exchange) := by
  rw [new_conf, (defaultSerializer_fields _).2.2.2.2.2.2.1,
    (defaultExchange_fields _).2.2.2.2.2.2.1,
    (defaultPassword_fields _).2.2.2.2.2.2.1,
    (defaultUsername_fields _).2.2.2.2.2.2.1,
    (defaultVhost_fields _).2.2.2.2.2.2.1,
    (defaultPort_fields _).2.2.2.2.2.2.1,
    (defaultAddr_fields _).2.2.2.2.2.2.1]

/-- How `New` fills the serializer field. -/
lemma new_Serializer (c : Config) :
    (New c).1.conf.Serializer =
      (if c.Serializer = none then some SerializerKind.gob
        else c.Serializer) := by
  rw [new_conf, (defaultSerializer_fields _).2.2.2.2.2.2.2,
    (defaultExchange_fields _).2.2.2.2.2.2.2,
    (defaultPassword_fields _).2.2.2.2.2.2.2,
    (defaultUsername_fields _).2.2.2.2.2.2.2,
    (defaultVhost_fields _).2.2.2.2.2.2.2,
    (defaultPort_fields _).2.2.2.2.2.2.2,
    (defaultAddr_fields _).2.2.2.2.2.2.2]

/-- C5: after `New` returns, every unset configuration field holds its
default — address "localhost", vhost "/", username and password "guest",
exchange "relay", the generic binary (GOB) serializer, and port 5671 when
TLS is enabled, otherwise 5672 — and the dial URI built by `getConn` has
scheme "amqps" exactly when the TLS flag is set and "amqp" otherwise, with
the configured host, port, vhost and credentials. -/
theorem c5_defaults_and_dial_uri :
    (∀ c : Config,
      (c.Addr = "" → (New c).1.conf.Addr = "localhost") ∧
      (c.Port = 0 →
        (New c).1.conf.Port = if c.EnableTLS then 5671 else 5672) ∧
      (c.Vhost = "" → (New c).1.conf.Vhost = "/") ∧
      (c.Username = "" → (New c).1.conf.Username = "guest") ∧
      (c.Password = "" → (New c).1.conf.Password = "guest") ∧
      (c.Exchange = "" → (New c).1.conf.Exchange = "relay") ∧
      (c.Serializer = none →
        (New c).1.conf.Serializer = some SerializerKind.gob)) ∧
    (∀ conf : Config,
      ((getConnURI conf).Scheme = "amqps" ↔ conf.EnableTLS = true) ∧
      ((getConnURI conf).Scheme = "amqp" ↔ conf.EnableTLS = false) ∧
      (getConnURI conf).Host = conf.Addr ∧
      (getConnURI conf).Port = conf.Port ∧
      (getConnURI conf).Username = conf.Username ∧
      (getConnURI conf).Password = conf.Password ∧
      (getConnURI conf).Vhost = conf.Vhost) := by
  constructor
  · intro c
    refine ⟨fun hu => ?_, fun hu => ?_, fun hu => ?_, fun hu => ?_,
      fun hu => ?_, fun hu => ?_, fun hu => ?_⟩
    · rw [new_Addr, if_pos hu]
    · rw [new_Port, if_pos hu]
    · rw [new_Vhost, if_pos hu]
    · rw [new_Username, if_pos hu]
    · rw [new_Password, if_pos hu]
    · rw [new_Exchange, if_pos hu]
    · rw [new_Serializer, if_pos hu]
  · intro conf
    rcases ht : conf.EnableTLS <;> simp [getConnURI, ht]

/-- C5 witness: a zero configuration without TLS gets every default and an
"amqp" scheme; the same configuration with TLS gets port 5671 and scheme
"amqps". -/
theorem c5_witness :
    (New Config.zero).1.conf.Addr = "localhost" ∧
    (New Config.zero).1.conf.Port = 5672 ∧
    (New Config.zero).1.conf.Vhost = "/" ∧
    (New Config.zero).1.conf.Username = "guest" ∧
    (New Config.zero).1.conf.Password = "guest" ∧
    (New Config.zero).1.conf.Exchange = "relay" ∧
    (New Config.zero).1.conf.Serializer = some SerializerKind.gob ∧
    (New { Config.zero with EnableTLS := true }).1.conf.Port = 5671 ∧
    (getConnURI { Config.zero with EnableTLS := true }).Scheme = "amqps" ∧
    (getConnURI Config.zero).Scheme = "amqp" :=
  have h0 := c5_defaults_and_dial_uri.1 Config.zero
  have h1 := c5_defaults_and_dial_uri.1 { Config.zero with EnableTLS := true }
  ⟨h0.1 rfl, h0.2.1 rfl, h0.2.2.1 rfl, h0.2.2.2.1 rfl, h0.2.2.2.2.1 rfl,
   h0.2.2.2.2.2.1 rfl, h0.2.2.2.2.2.2 rfl, h1.2.1 rfl,
   (c5_defaults_and_dial_uri.2 { Config.zero with EnableTLS := true }).1.mpr rfl,
   (c5_defaults_and_dial_uri.2 Config.zero).2.1.mpr rfl⟩

/-- C9 counterexample: at the zero configuration, `New` does register a
garbage-collector finalizer (`runtime.SetFinalizer(r, (*Relay).Close)` in
the source), refuting the claim that construction registers none. -/
theorem c9_counterexample_new_registers_finalizer :
    (New Config.zero).2.2 = [Effect.setFinalizer "Relay.Close"] := rfl

/-- C9 amended: constructing a Relay registers a garbage-collector
finalizer invoking `Close`, and every successful Consumer or Publisher
construction likewise registers a `Close` finalizer as a backup cleanup
mechanism — cleanup does not rely solely on explicit `Close` calls. -/
theorem c9_constructors_register_close_finalizers :
    (∀ c : Config, (New c).2.2 = [Effect.setFinalizer "Relay.Close"]) ∧
    (∀ (env : BrokerEnv) (r : RelayState) (queue : String)
      (h : ConsumerHandle),
      (RelayState.consumer env r queue).1 = Except.ok h →
      (RelayState.consumer env r queue).2.2 =
        [Effect.setFinalizer "Consumer.Close"]) ∧
    (∀ (env : BrokerEnv) (r : RelayState) (queue : String)
      (h : PublisherHandle),
      (RelayState.publisher env r queue).1 = Except.ok h →
      (RelayState.publisher env r queue).2.2 =
        [Effect.setFinalizer "Publisher.Close"]) := by
  refine ⟨fun c => rfl, ?_, ?_⟩
  · intro env r queue h hok
    simp only [RelayState.consumer] at hok ⊢
    repeat' split at hok
    all_goals simp_all
  · intro env r queue h hok
    simp only [RelayState.publisher] at hok ⊢
    repeat' split at hok
    all_goals simp_all

/-- C9 witness for the amended claim: with an all-success broker the
Consumer and Publisher constructions both register their `Close`
finalizer. -/
theorem c9_amended_witness :
    (RelayState.consumer envAllOk (New Config.zero).1 "test").2.2 =
      [Effect.setFinalizer "Consumer.Close"] ∧
    (RelayState.publisher envAllOk (New Config.zero).1 "test").2.2 =
      [Effect.setFinalizer "Publisher.Close"] :=
  ⟨c9_constructors_register_close_finalizers.2.1 envAllOk (New Config.zero).1
      "test" ⟨(New Config.zero).1.conf, "relay.tag", "test", ⟨0⟩, 0, 0, false⟩
      rfl,
   c9_constructors_register_close_finalizers.2.2 envAllOk (New Config.zero).1
      "test" ⟨(New Config.zero).1.conf, "test", ⟨0⟩, "binary/gob",
        Persistent, true⟩ rfl⟩

/-- C6: with multi-ack disabled, a consumer that has taken a delivery and
not acknowledged it fails a second `Consume` immediately with the
ack-required error; the queue and the consumer state are untouched, so
the new delivery is not taken off the stream and the first call's output
is unaffected. -/
theorem c6_double_consume_without_ack_fails :
    ∀ (q : MQueue) (c : MConsumer) (m : String) (rest : List String),
      c.multiAck = false → c.closed = false → c.unacked = [] →
      q.ready = m :: rest →
      (MConsumer.consume q c).1 = ConsumeRes.ok m ∧
      MConsumer.consume (MConsumer.consume q c).2.1
          (MConsumer.consume q c).2.2 =
        (ConsumeRes.err RelayError.ackRequired,
          (MConsumer.consume q c).2.1, (MConsumer.consume q c).2.2) := by
  intro q c m rest hma hcl hun hq
  simp [MConsumer.consume, hma, hcl, hun, hq]

/-- C6 witness: a first consume delivers "a"; the second consume, with no
intervening ack or nack, fails with the ack-required error and leaves the
remaining stream and the consumer untouched. -/
theorem c6_witness :
    (MConsumer.consume ⟨["a", "b"]⟩ ⟨false, [], false⟩).1 =
      ConsumeRes.ok "a" ∧
    MConsumer.consume (MConsumer.consume ⟨["a", "b"]⟩ ⟨false, [], false⟩).2.1
        (MConsumer.consume ⟨["a", "b"]⟩ ⟨false, [], false⟩).2.2 =
      (ConsumeRes.err RelayError.ackRequired,
        (MConsumer.consume ⟨["a", "b"]⟩ ⟨false, [], false⟩).2.1,
        (MConsumer.consume ⟨["a", "b"]⟩ ⟨false, [], false⟩).2.2) :=
  c6_double_consume_without_ack_fails ⟨["a", "b"]⟩ ⟨false, [], false⟩
    "a" ["b"] rfl rfl rfl rfl

/-- C7: after a Consumer's `Close` has completed, `Consume`, `Ack` and
`Nack` each return the distinguished `ChannelClosed` sentinel; after a
Publisher's `Close` has completed, `Publish` returns the same sentinel;
and the sentinel is distinct from every generic error. -/
theorem c7_post_close_sentinel :
    ∀ (q q2 q3 q4 : MQueue) (c : MConsumer) (p : MPublisher) (m : String),
      (MConsumer.consume q2 (MConsumer.close q c).2.2).1 =
        ConsumeRes.err RelayError.channelClosed ∧
      (MConsumer.ack q3 (MConsumer.close q c).2.2).1 =
        some RelayError.channelClosed ∧
      (MConsumer.nack q4 (MConsumer.close q c).2.2).1 =
        some RelayError.channelClosed ∧
      (MPublisher.publish (MPublisher.close p).2 m q2).1 =
        some RelayError.channelClosed ∧
      (∀ s : String, RelayError.channelClosed ≠ RelayError.other s) := by
  intro q q2 q3 q4 c p m
  have hcl : (MConsumer.close q c).2.2.closed = true := by
    unfold MConsumer.close
    rcases h : c.closed <;> simp [h]
  have hpc : (MPublisher.close p).2.closed = true := rfl
  refine ⟨?_, ?_, ?_, ?_, fun s => by simp⟩
  · simp [MConsumer.consume, hcl]
  · simp [MConsumer.ack, hcl]
  · simp [MConsumer.nack, hcl]
  · simp [MPublisher.publish, hpc]

/-- C7 witness: a freshly closed consumer and publisher, each operation
returning the sentinel. -/
theorem c7_witness :
    (MConsumer.consume ⟨["x"]⟩
        (MConsumer.close ⟨[]⟩ ⟨false, [], false⟩).2.2).1 =
      ConsumeRes.err RelayError.channelClosed ∧
    (MConsumer.ack ⟨[]⟩ (MConsumer.close ⟨[]⟩ ⟨false, [], false⟩).2.2).1 =
      some RelayError.channelClosed ∧
    (MConsumer.nack ⟨[]⟩ (MConsumer.close ⟨[]⟩ ⟨false, [], false⟩).2.2).1 =
      some RelayError.channelClosed ∧
    (MPublisher.publish (MPublisher.close ⟨false⟩).2 "test" ⟨["x"]⟩).1 =
      some RelayError.channelClosed :=
  have h := c7_post_close_sentinel ⟨[]⟩ ⟨["x"]⟩ ⟨[]⟩ ⟨[]⟩
    ⟨false, [], false⟩ ⟨false⟩ "test"
  ⟨h.1, h.2.1, h.2.2.1, h.2.2.2.1⟩

/-- C8: a Consumer holding a pending unacknowledged delivery nacks
(requeues) it on `Close` before the channel closes: the message returns to
the head of the queue, and a fresh Consumer opened on the same queue
receives it. -/
theorem c8_close_requeues_pending_delivery :
    ∀ (q : MQueue) (c : MConsumer) (m : String) (multiAck2 : Bool),
      c.closed = false → c.unacked = [m] →
      (MConsumer.close q c).2.1.ready = m :: q.ready ∧
      (MConsumer.close q c).2.2.closed = true ∧
      (MConsumer.consume (MConsumer.close q c).2.1
          ⟨multiAck2, [], false⟩).1 = ConsumeRes.ok m := by
  intro q c m multiAck2 hcl hun
  have h1 : (MConsumer.close q c).2.1.ready = m :: q.ready := by
    simp [MConsumer.close, hcl, hun]
  refine ⟨h1, ?_, ?_⟩
  · simp [MConsumer.close, hcl]
  · simp [MConsumer.consume, h1]

/-- C8 witness: consuming one message without acking, closing the
consumer, and opening a new consumer on the same queue delivers the
message again — it is not lost. -/
theorem c8_witness :
    (MConsumer.close ⟨["1"]⟩ ⟨false, ["0"], false⟩).2.1.ready =
      ["0", "1"] ∧
    (MConsumer.consume (MConsumer.close ⟨["1"]⟩ ⟨false, ["0"], false⟩).2.1
        ⟨false, [], false⟩).1 = ConsumeRes.ok "0" :=
  have h := c8_close_requeues_pending_delivery ⟨["1"]⟩ ⟨false, ["0"], false⟩
    "0" false rfl rfl
  ⟨h.1, h.2.2⟩

end Relay
